import Mathlib

/-!
Shallow embedding of the parking-lot program (`Parkinglot.cc`).

Pure C++ functions become Lean functions; the stateful `ParkingLot` /
`PaymentService` classes become explicit state passing over `LotState`.
`unsigned long long` quantities (fee amounts, billed hours) are modelled as
`Nat` with an explicit `% 2^64` wherever the C++ performs arithmetic that can
overflow.  `std::chrono` time points are modelled as integers at minute
granularity (the program only ever inspects durations cast to minutes).
Fallible member functions (which `throw std::runtime_error`) return
`Except String _` carrying the thrown message, paired with the post-state
(C++ exceptions do not roll back member mutations made before the throw).
`std::unordered_map` tables become association lists whose `emplace` keeps
the first binding of a key, matching map semantics.
-/

/-- Embeds `enum class VehicleType { Bike, Car, Truck }`. -/
inductive VehicleType where
  | Bike | Car | Truck
deriving DecidableEq, Repr

/-- Embeds `enum class SlotType { TwoWheeler, FourWheeler, Heavy }`. -/
inductive SlotType where
  | TwoWheeler | FourWheeler | Heavy
deriving DecidableEq, Repr

/-- Embeds `struct Vehicle { string regNo; VehicleType type; }`. -/
structure Vehicle where
  regNo : String
  type : VehicleType
deriving DecidableEq, Repr

/-- Embeds `static SlotType slotFor(VehicleType t)`. -/
def slotFor : VehicleType → SlotType
  | .Bike => .TwoWheeler
  | .Car => .FourWheeler
  | .Truck => .Heavy

/-- Embeds `struct ParkingSlot { string id; SlotType type; bool isFree = true; }`. -/
structure ParkingSlot where
  id : String
  type : SlotType
  isFree : Bool := true
deriving DecidableEq, Repr

/-- Embeds `struct Floor { int floorNo; vector<ParkingSlot> slots; }`. -/
structure Floor where
  floorNo : Int := 0
  slots : List ParkingSlot
deriving DecidableEq, Repr

/-- Embeds `Floor::findFreeIndex(SlotType t)`: first index whose slot matches `t` and
is free, scanning in order; the C++ returns the `int` index (or -1), here we
return the index together with the slot stored there (`none` for -1). -/
def findFreeIndex : List ParkingSlot → SlotType → Option (Nat × ParkingSlot)
  | [], _ => none
  | s :: ss, t =>
    if s.type == t && s.isFree then some (0, s)
    else (findFreeIndex ss t).map (fun p => (p.1 + 1, p.2))

/-- Embeds `struct Ticket` (the `std::chrono` entry time is an integer minute
stamp). -/
structure Ticket where
  id : Nat
  entryGateId : String
  inTime : Int
  slotId : String
  vtype : VehicleType
  stype : SlotType
  vehicleReg : String
deriving DecidableEq, Repr

/-- Embeds `struct FeeBreakup { unsigned long long amount, billedHours, parkedMinutes; }`. -/
structure FeeBreakup where
  amount : Nat := 0
  billedHours : Nat := 0
  parkedMinutes : Nat := 0
deriving DecidableEq, Repr

/-- The `unsigned long long` modulus, `2^64`. -/
def U64 : Nat := 18446744073709551616

/-- Embeds `IFeeStrategy::ceilHours`: `(minutes + 59) / 60` in `unsigned long long`
arithmetic (the addition wraps at `2^64`), with an explicit zero case. -/
def ceilHours (minutes : Nat) : Nat :=
  if minutes = 0 then 0 else ((minutes + 59) % U64) / 60

/-- Embeds `static constexpr unsigned long long GRACE_MINUTES = 10`. -/
def GRACE_MINUTES : Nat := 10

/-- Embeds `TwoWheelerFee::compute` (rate 10/hour, `unsigned long long` multiply). -/
def twoWheelerFee (minutes : Nat) : FeeBreakup :=
  if minutes ≤ GRACE_MINUTES then
    { parkedMinutes := minutes, billedHours := 0, amount := 0 }
  else
    let hours := ceilHours minutes
    { parkedMinutes := minutes, billedHours := hours, amount := hours * 10 % U64 }

/-- Embeds `FourWheelerFee::compute` (rate 20/hour). -/
def fourWheelerFee (minutes : Nat) : FeeBreakup :=
  if minutes ≤ GRACE_MINUTES then
    { parkedMinutes := minutes, billedHours := 0, amount := 0 }
  else
    let hours := ceilHours minutes
    { parkedMinutes := minutes, billedHours := hours, amount := hours * 20 % U64 }

/-- Embeds `HeavyFee::compute` (rate 50/hour). -/
def heavyFee (minutes : Nat) : FeeBreakup :=
  if minutes ≤ GRACE_MINUTES then
    { parkedMinutes := minutes, billedHours := 0, amount := 0 }
  else
    let hours := ceilHours minutes
    { parkedMinutes := minutes, billedHours := hours, amount := hours * 50 % U64 }

/-- Embeds `FeeStrategyFactory::make(s)->compute(m)`: dispatch on slot category. -/
def feeCompute : SlotType → Nat → FeeBreakup
  | .TwoWheeler, m => twoWheelerFee m
  | .FourWheeler, m => fourWheelerFee m
  | .Heavy, m => heavyFee m

/-- Embeds `enum class BillStatus { Pending, Paid, Failed, Cancelled }`. -/
inductive BillStatus where
  | Pending | Paid | Failed | Cancelled
deriving DecidableEq, Repr

/-- Embeds `struct Bill` (time stamps as integer minutes). -/
structure Bill where
  id : Nat
  ticket : Nat
  vehicleReg : String
  slotId : String
  entryGateId : String
  exitGateId : String
  inTime : Int
  outTime : Int
  parkedMinutes : Nat
  billedHours : Nat
  amount : Nat
  status : BillStatus := .Pending
deriving DecidableEq, Repr

/-- Embeds `struct Receipt`. -/
structure Receipt where
  bill : Nat
  ticket : Nat
  amount : Nat
  method : String
  paidAt : Int
deriving DecidableEq, Repr

/-- Embeds `enum class PaymentMethod { Cash, Card, UPI }`. -/
inductive PaymentMethod where
  | Cash | Card | UPI
deriving DecidableEq, Repr

/-- Embeds `struct PaymentRequest`. -/
structure PaymentRequest where
  bill : Nat
  amount : Nat
  method : PaymentMethod
  cardNumber : String := ""
  upiVPA : String := ""
deriving DecidableEq, Repr

/-- Embeds `IPaymentProcessor::charge` dispatched through `makeProcessor`:
returns the C++ `bool` result together with the `failureReason` out-string
(`""` when untouched).  `CashProcessor` always succeeds; `CardProcessor`
rejects card numbers shorter than 8; `UPIProcessor` rejects a VPA without
an `'@'` (`find('@') == npos`). -/
def chargeProc : PaymentMethod → PaymentRequest → Bool × String
  | .Cash, _ => (true, "")
  | .Card, req =>
    if req.cardNumber.length < 8 then (false, "Card declined (invalid number)")
    else (true, "")
  | .UPI, req =>
    if req.upiVPA.data.contains '@' then (true, "")
    else (false, "UPI failed (invalid VPA)")

/-- Embeds `IPaymentProcessor::name()` of the processor `makeProcessor` selects. -/
def procName : PaymentMethod → String
  | .Cash => "Cash"
  | .Card => "Card"
  | .UPI => "UPI"

/-- Combined mutable state of the singleton `ParkingLot`: its `floors_` and
`active_` table, the `TicketingService` counter, and the owned
`PaymentService` (`bills_` table and `nextBill_` counter). -/
structure LotState where
  floors : List Floor
  active : List Ticket
  nextTicketId : Nat
  bills : List Bill
  nextBillId : Nat
deriving DecidableEq, Repr

/-- Embeds `active_.emplace(tid, tk)`: inserts only when the key is absent. -/
def emplaceTicket (m : List Ticket) (tk : Ticket) : List Ticket :=
  if m.any (fun t => t.id == tk.id) then m else tk :: m

/-- Embeds `bills_.emplace(b.id, b)`: inserts only when the key is absent. -/
def emplaceBill (m : List Bill) (b : Bill) : List Bill :=
  if m.any (fun x => x.id == b.id) then m else b :: m

/-- Embeds `active_.erase(it)` for the entry with key `tid`. -/
def eraseTicket (m : List Ticket) (tid : Nat) : List Ticket :=
  m.filter (fun t => t.id != tid)

/-- In-place mutation `it->second.status = s` of the bill table entry with
key `i` (a map holds at most one entry per key). -/
def setBillStatus (bs : List Bill) (i : Nat) (s : BillStatus) : List Bill :=
  bs.map (fun b => if b.id = i then { b with status := s } else b)

/-- Update `slots[si].isFree = b` inside a floor's slot vector. -/
def setSlotInList : List ParkingSlot → Nat → Bool → List ParkingSlot
  | [], _, _ => []
  | s :: ss, 0, b => { s with isFree := b } :: ss
  | s :: ss, si + 1, b => s :: setSlotInList ss si b

/-- Update `floors_[fi].slots[si].isFree = b`. -/
def setSlotFree : List Floor → Nat → Nat → Bool → List Floor
  | [], _, _, _ => []
  | f :: fs, 0, si, b => { f with slots := setSlotInList f.slots si b } :: fs
  | f :: fs, fi + 1, si, b => f :: setSlotFree fs fi si b

/-- The floor/slot scan of `ParkingLot::enterVehicle`: try
`floors_[f].findFreeIndex(need)` for `f = 0, 1, ...`, stopping at the first
floor that reports a free slot; returns the floor index, slot index and the
slot found there. -/
def findSlot : List Floor → SlotType → Option (Nat × Nat × ParkingSlot)
  | [], _ => none
  | f :: fs, t =>
    match findFreeIndex f.slots t with
    | some (i, s) => some (0, i, s)
    | none => (findSlot fs t).map (fun p => (p.1 + 1, p.2))

/-- Inner scan of `ParkingLot::findSlotById_nolock` over one floor's slots:
first slot whose `id` equals `sid`, with its index. -/
def findSlotIndexById : List ParkingSlot → String → Option (Nat × ParkingSlot)
  | [], _ => none
  | s :: ss, sid =>
    if s.id == sid then some (0, s)
    else (findSlotIndexById ss sid).map (fun p => (p.1 + 1, p.2))

/-- Embeds `ParkingLot::findSlotById_nolock(sid)`: linear scan across all floors,
then slots, returning the first slot whose id matches (here with its floor
and slot indices so the caller can write through the pointer). -/
def findSlotById : List Floor → String → Option (Nat × Nat × ParkingSlot)
  | [], _ => none
  | f :: fs, sid =>
    match findSlotIndexById f.slots sid with
    | some (i, s) => some (0, i, s)
    | none => (findSlotById fs sid).map (fun p => (p.1 + 1, p.2))

/-- Embeds `ParkingLot::configure(fs)`: installs the given floors unconditionally,
clears the active-ticket table, resets the ticket counter to 1 and resets the
payment service (`bills_.clear()`, `nextBill_ = 1`). -/
def configure (_st : LotState) (fs : List Floor) : LotState :=
  { floors := fs, active := [], nextTicketId := 1, bills := [], nextBillId := 1 }

/-- Embeds `ParkingLot::enterVehicle(entryGate, v)`: first-fit scan for a free slot
of the required category; on failure throws `"No free slot available"`
without mutating anything; on success marks the slot occupied, opens a
ticket via `TicketingService::openTicket` — `nextId.fetch_add(1)` on the
`atomic<unsigned long long>` counter returns the old value as the ticket id
and stores the incremented value wrapped at `2^64` — and records the ticket
in `active_` (`emplace` silently inserts nothing when the key is already
present).  `now` is the injected `system_clock::now()` minute stamp. -/
def enterVehicle (st : LotState) (entryGate : String) (v : Vehicle) (now : Int) :
    Except String Nat × LotState :=
  match findSlot st.floors (slotFor v.type) with
  | none => (.error "No free slot available", st)
  | some (fi, si, slot) =>
    let tk : Ticket :=
      { id := st.nextTicketId, entryGateId := entryGate, inTime := now,
        slotId := slot.id, vtype := v.type, stype := slot.type,
        vehicleReg := v.regNo }
    (.ok tk.id,
      { st with
          floors := setSlotFree st.floors fi si false,
          active := emplaceTicket st.active tk,
          nextTicketId := (st.nextTicketId + 1) % U64 })

/-- Embeds `PaymentService::createBill(tk, exitGate, fb)`: builds the `Pending` bill
from the ticket and fee breakdown, stamps `outTime` with "now", draws the
next bill id (`nextBill_.fetch_add(1)` returns the old value and stores the
increment wrapped at `2^64`) and stores the bill in `bills_`. -/
def createBill (st : LotState) (tk : Ticket) (exitGate : String)
    (fb : FeeBreakup) (now : Int) : Bill × LotState :=
  let b : Bill :=
    { id := st.nextBillId, ticket := tk.id, vehicleReg := tk.vehicleReg,
      slotId := tk.slotId, entryGateId := tk.entryGateId,
      exitGateId := exitGate, inTime := tk.inTime, outTime := now,
      parkedMinutes := fb.parkedMinutes, billedHours := fb.billedHours,
      amount := fb.amount, status := .Pending }
  (b, { st with bills := emplaceBill st.bills b, nextBillId := (st.nextBillId + 1) % U64 })

/-- Embeds `ParkingLot::exitVehicle(tid, exitGate, lostTicket)`: looks the ticket up
in `active_` (throws `"Invalid or already-closed ticket"` if absent), erases
it, then resolves the ticket's slot id (the not-found throw happens *after*
the erase), frees the slot, computes elapsed minutes clamped at zero, applies
the fee strategy, adds the flat lost-ticket penalty of 200 when flagged
(`unsigned long long` addition) and creates a `Pending` bill. -/
def exitVehicle (st : LotState) (tid : Nat) (exitGate : String)
    (lostTicket : Bool) (now : Int) : Except String Bill × LotState :=
  match st.active.find? (fun t => t.id == tid) with
  | none => (.error "Invalid or already-closed ticket", st)
  | some tk =>
    let st := { st with active := eraseTicket st.active tid }
    match findSlotById st.floors tk.slotId with
    | none => (.error ("Slot referenced by ticket not found: " ++ tk.slotId), st)
    | some (fi, si, _) =>
      let st := { st with floors := setSlotFree st.floors fi si true }
      let mins : Nat := (now - tk.inTime).toNat
      let fb := feeCompute tk.stype mins
      let fb := if lostTicket then { fb with amount := (fb.amount + 200) % U64 } else fb
      let (bill, st) := createBill st tk exitGate fb now
      (.ok bill, st)

/-- Embeds `PaymentService::pay(req)` (reached through `ParkingLot::payBill`):
throws `"Bill not found"` for an unknown bill id; returns an
`"ALREADY_PAID"` replay receipt for a `Paid` bill without touching the
processor; throws for a bill that is neither `Paid` nor `Pending`; otherwise
charges the processor selected by `req.method`, marking the bill `Paid` on
success or `Failed` on decline (the decline is then thrown).  The final
`Nat` counts how many times `IPaymentProcessor::charge` ran during the
call. -/
def pay (st : LotState) (req : PaymentRequest) (now : Int) :
    Except String Receipt × LotState × Nat :=
  match st.bills.find? (fun b => b.id == req.bill) with
  | none => (.error "Bill not found", st, 0)
  | some b =>
    if b.status = .Paid then
      (.ok { bill := b.id, ticket := b.ticket, amount := b.amount,
             method := "ALREADY_PAID", paidAt := now }, st, 0)
    else if b.status ≠ .Pending then
      (.error "Bill is not payable (status != Pending)", st, 0)
    else
      let r := chargeProc req.method req
      if r.1 then
        (.ok { bill := b.id, ticket := b.ticket, amount := b.amount,
               method := procName req.method, paidAt := now },
         { st with bills := setBillStatus st.bills req.bill .Paid }, 1)
      else
        (.error ("Payment failed: " ++ r.2),
         { st with bills := setBillStatus st.bills req.bill .Failed }, 1)

/-- Embeds `PaymentService::cancel(id)`: throws `"Bill not found"` for an unknown
id, throws `"Cannot cancel a paid bill"` when the status is `Paid`, and
otherwise (for `Pending`, `Failed` or `Cancelled` alike) sets the status to
`Cancelled`. -/
def cancel (st : LotState) (i : Nat) : Except String Unit × LotState :=
  match st.bills.find? (fun b => b.id == i) with
  | none => (.error "Bill not found", st)
  | some b =>
    if b.status = .Paid then (.error "Cannot cancel a paid bill", st)
    else (.ok (), { st with bills := setBillStatus st.bills i .Cancelled })

/-- All slots of the lot, floors in order (the iteration order of
`occupancy` and `findSlotById_nolock`). -/
def allSlots (floors : List Floor) : List ParkingSlot :=
  floors.flatMap Floor.slots

/-- Embeds `ParkingLot::occupancy(free, used, total)` as a triple
`(freeCnt, usedCnt, total)`. -/
def occupancy (st : LotState) : Nat × Nat × Nat :=
  (((allSlots st.floors).filter (fun s => s.isFree)).length,
   ((allSlots st.floors).filter (fun s => !s.isFree)).length,
   (allSlots st.floors).length)

/-- Count of slots whose `isFree == false` (the `usedCnt` of `occupancy`). -/
def occupiedCount (floors : List Floor) : Nat :=
  ((allSlots floors).filter (fun s => !s.isFree)).length

/-- Embeds `ParkingLot::activeCount()`. -/
def activeCount (st : LotState) : Nat :=
  st.active.length

/-- The validation performed by the floor-building loop of
`loadConfigFromJson` (JSON parsing and field extraction omitted): the first
floor whose slot list is empty triggers
`"Floor <n> has no slots in config"`, and an empty floor list triggers
`"Config has zero floors"`; otherwise the floors are returned as built. -/
def validateConfig (fs : List Floor) : Except String (List Floor) :=
  match fs.find? (fun f => f.slots.isEmpty) with
  | some f => .error ("Floor " ++ toString f.floorNo ++ " has no slots in config")
  | none => if fs.isEmpty then .error "Config has zero floors" else .ok fs

/-! ## Helper lemmas -/

lemma chargeProc_amount_irrel (m : PaymentMethod) (req : PaymentRequest) (a : Nat) :
    chargeProc m { req with amount := a } = chargeProc m req := by
  cases m <;> rfl

lemma ceilHours_le (m : Nat) : ceilHours m ≤ 307445734561825860 := by
  unfold ceilHours
  split
  · exact Nat.zero_le _
  · have h1 : (m + 59) % U64 ≤ U64 - 1 := by
      have h0 : 0 < U64 := by norm_num [U64]
      have := Nat.mod_lt (m + 59) h0
      omega
    calc (m + 59) % U64 / 60 ≤ (U64 - 1) / 60 := Nat.div_le_div_right h1
      _ = 307445734561825860 := by norm_num [U64]

lemma feeCompute_amount_le (s : SlotType) (m : Nat) :
    (feeCompute s m).amount ≤ 15372286728091293000 := by
  have h := ceilHours_le m
  cases s <;> simp only [feeCompute, twoWheelerFee, fourWheelerFee, heavyFee] <;> split
  · simp
  · calc ceilHours m * 10 % U64 ≤ ceilHours m * 10 := Nat.mod_le _ _
      _ ≤ 307445734561825860 * 10 := Nat.mul_le_mul_right _ h
      _ ≤ 15372286728091293000 := by norm_num
  · simp
  · calc ceilHours m * 20 % U64 ≤ ceilHours m * 20 := Nat.mod_le _ _
      _ ≤ 307445734561825860 * 20 := Nat.mul_le_mul_right _ h
      _ ≤ 15372286728091293000 := by norm_num
  · simp
  · calc ceilHours m * 50 % U64 ≤ ceilHours m * 50 := Nat.mod_le _ _
      _ ≤ 307445734561825860 * 50 := Nat.mul_le_mul_right _ h
      _ ≤ 15372286728091293000 := by norm_num

/-! ## C8: payment processor validation -/

/-- C8: for every payment request, a Cash charge always succeeds; a Card
charge succeeds iff the card number has length at least 8, otherwise failing
with the invalid-number decline reason; a UPI charge succeeds iff the
virtual payment address contains an `'@'` character, otherwise failing with
the invalid-address reason. -/
theorem c8_payment_processors (req : PaymentRequest) :
    chargeProc .Cash req = (true, "") ∧
    chargeProc .Card req =
      (if 8 ≤ req.cardNumber.length then (true, "")
       else (false, "Card declined (invalid number)")) ∧
    chargeProc .UPI req =
      (if '@' ∈ req.upiVPA.data then (true, "")
       else (false, "UPI failed (invalid VPA)")) := by
  refine ⟨rfl, ?_, ?_⟩
  · rcases Nat.lt_or_ge req.cardNumber.length 8 with h | h
    · simp [chargeProc, h, Nat.not_le.2 h]
    · simp [chargeProc, h, Nat.not_lt.2 h]
  · by_cases h : '@' ∈ req.upiVPA.data
    · simp [chargeProc, h]
    · simp [chargeProc, h]

/-! ## C4: fee schedule (corrected: `unsigned long long` wrap-around) -/

/-- C4 counterexample: at `parkedMinutes = 2^64 - 1` (a representable
`unsigned long long` input), the C++ computes `(minutes + 59) / 60` in
wrapping arithmetic, so the billed hours are `58 / 60 = 0` instead of the
claimed `ceiling(m / 60) = (m + 59) / 60 = 307445734561825861`, and the
amount is `0` instead of `hours x rate`. -/
theorem c4_counterexample :
    10 < 18446744073709551615 ∧
    (fourWheelerFee 18446744073709551615).billedHours = 0 ∧
    (fourWheelerFee 18446744073709551615).amount = 0 ∧
    (18446744073709551615 + 59) / 60 = 307445734561825861 ∧
    (0 : Nat) ≠ 307445734561825861 := by
  exact ⟨by norm_num, by decide, by decide, by norm_num, by norm_num⟩

/-- The fee schedule the claim states, as a predicate on the parked-minute
count: within the 10-minute grace period everything is zero; beyond it the
billed hours are `ceiling(m / 60)` (written `(m + 59) / 60`) and the amount
is the billed hours times the category rate (10 / 20 / 50). -/
def FeeSpecOK (m : Nat) : Prop :=
  (m ≤ 10 →
    twoWheelerFee m = { parkedMinutes := m, billedHours := 0, amount := 0 } ∧
    fourWheelerFee m = { parkedMinutes := m, billedHours := 0, amount := 0 } ∧
    heavyFee m = { parkedMinutes := m, billedHours := 0, amount := 0 }) ∧
  (10 < m →
    twoWheelerFee m =
      { parkedMinutes := m, billedHours := (m + 59) / 60, amount := (m + 59) / 60 * 10 } ∧
    fourWheelerFee m =
      { parkedMinutes := m, billedHours := (m + 59) / 60, amount := (m + 59) / 60 * 20 } ∧
    heavyFee m =
      { parkedMinutes := m, billedHours := (m + 59) / 60, amount := (m + 59) / 60 * 50 })

/-- C4 amended: the claimed fee schedule holds for every parked-minute count
`m` with `m + 59 < 2^64`, i.e. whenever the `(minutes + 59)` addition does
not wrap (the rate multiplication then never wraps either); the original
claim fails only on the wrap-around inputs `m ≥ 2^64 - 59` exhibited by the
counterexample. -/
theorem c4_fee_schedule_amended (m : Nat) (h : m + 59 < U64) : FeeSpecOK m := by
  constructor
  · intro hm
    refine ⟨?_, ?_, ?_⟩ <;>
      simp [twoWheelerFee, fourWheelerFee, heavyFee, GRACE_MINUTES, hm]
  · intro hm
    have hnot : ¬ m ≤ GRACE_MINUTES := by simp [GRACE_MINUTES]; omega
    have hmod : (m + 59) % U64 = m + 59 := Nat.mod_eq_of_lt h
    have hceil : ceilHours m = (m + 59) / 60 := by
      unfold ceilHours
      rw [if_neg (by omega), hmod]
    have hb : (m + 59) / 60 ≤ 307445734561825860 := by
      have h1 : (m + 59) / 60 ≤ (U64 - 1) / 60 := Nat.div_le_div_right (by omega)
      calc (m + 59) / 60 ≤ (U64 - 1) / 60 := h1
        _ = 307445734561825860 := by norm_num [U64]
    have h10 : (m + 59) / 60 * 10 % U64 = (m + 59) / 60 * 10 :=
      Nat.mod_eq_of_lt (by
        calc (m + 59) / 60 * 10 ≤ 307445734561825860 * 10 := Nat.mul_le_mul_right _ hb
          _ < U64 := by norm_num [U64])
    have h20 : (m + 59) / 60 * 20 % U64 = (m + 59) / 60 * 20 :=
      Nat.mod_eq_of_lt (by
        calc (m + 59) / 60 * 20 ≤ 307445734561825860 * 20 := Nat.mul_le_mul_right _ hb
          _ < U64 := by norm_num [U64])
    have h50 : (m + 59) / 60 * 50 % U64 = (m + 59) / 60 * 50 :=
      Nat.mod_eq_of_lt (by
        calc (m + 59) / 60 * 50 ≤ 307445734561825860 * 50 := Nat.mul_le_mul_right _ hb
          _ < U64 := by norm_num [U64])
    refine ⟨?_, ?_, ?_⟩ <;>
      simp [twoWheelerFee, fourWheelerFee, heavyFee, hnot, hceil, h10, h20, h50]

/-- Witness for C4 amended at the spec's own scenario `m = 95` (1h35m):
two-wheeler amount `2 x 10 = 20`. -/
theorem c4_fee_schedule_amended_witness : 95 + 59 < U64 ∧ FeeSpecOK 95 :=
  ⟨by norm_num [U64], c4_fee_schedule_amended 95 (by norm_num [U64])⟩

/-! ## Unfolding equations for the stateful operations -/

lemma enterVehicle_none (st : LotState) (g : String) (v : Vehicle) (now : Int)
    (h : findSlot st.floors (slotFor v.type) = none) :
    enterVehicle st g v now = (.error "No free slot available", st) := by
  unfold enterVehicle
  rw [h]

lemma enterVehicle_some (st : LotState) (g : String) (v : Vehicle) (now : Int)
    (fi si : Nat) (s : ParkingSlot)
    (h : findSlot st.floors (slotFor v.type) = some (fi, si, s)) :
    enterVehicle st g v now =
      (.ok st.nextTicketId,
       { st with
           floors := setSlotFree st.floors fi si false,
           active := emplaceTicket st.active
             { id := st.nextTicketId, entryGateId := g, inTime := now,
               slotId := s.id, vtype := v.type, stype := s.type,
               vehicleReg := v.regNo },
           nextTicketId := (st.nextTicketId + 1) % U64 }) := by
  unfold enterVehicle
  rw [h]

lemma exitVehicle_no_ticket (st : LotState) (tid : Nat) (eg : String)
    (lt : Bool) (now : Int)
    (h : st.active.find? (fun t => t.id == tid) = none) :
    exitVehicle st tid eg lt now = (.error "Invalid or already-closed ticket", st) := by
  unfold exitVehicle
  rw [h]

lemma exitVehicle_no_slot (st : LotState) (tid : Nat) (eg : String)
    (lt : Bool) (now : Int) (tk : Ticket)
    (hfind : st.active.find? (fun t => t.id == tid) = some tk)
    (hslot : findSlotById st.floors tk.slotId = none) :
    exitVehicle st tid eg lt now =
      (.error ("Slot referenced by ticket not found: " ++ tk.slotId),
       { st with active := eraseTicket st.active tid }) := by
  unfold exitVehicle
  rw [hfind]
  simp only []
  rw [show ({ st with active := eraseTicket st.active tid } : LotState).floors
        = st.floors from rfl, hslot]

/-- The bill `exitVehicle` builds on its success path. -/
def exitBill (st : LotState) (eg : String) (now : Int) (tk : Ticket) (lt : Bool) : Bill :=
  let fb0 := feeCompute tk.stype ((now - tk.inTime).toNat)
  let fb := if lt then { fb0 with amount := (fb0.amount + 200) % U64 } else fb0
  { id := st.nextBillId, ticket := tk.id, vehicleReg := tk.vehicleReg,
    slotId := tk.slotId, entryGateId := tk.entryGateId, exitGateId := eg,
    inTime := tk.inTime, outTime := now, parkedMinutes := fb.parkedMinutes,
    billedHours := fb.billedHours, amount := fb.amount, status := .Pending }

lemma exitVehicle_ok (st : LotState) (tid : Nat) (eg : String)
    (lt : Bool) (now : Int) (tk : Ticket) (fi si : Nat) (rs : ParkingSlot)
    (hfind : st.active.find? (fun t => t.id == tid) = some tk)
    (hslot : findSlotById st.floors tk.slotId = some (fi, si, rs)) :
    exitVehicle st tid eg lt now =
      (.ok (exitBill st eg now tk lt),
       { st with
           floors := setSlotFree st.floors fi si true,
           active := eraseTicket st.active tid,
           bills := emplaceBill st.bills (exitBill st eg now tk lt),
           nextBillId := (st.nextBillId + 1) % U64 }) := by
  unfold exitVehicle
  rw [hfind]
  simp only []
  rw [show ({ st with active := eraseTicket st.active tid } : LotState).floors
        = st.floors from rfl, hslot]
  rfl

/-! ## C6: lost-ticket penalty -/

/-- C6: on a lost-ticket exit the flat penalty of exactly 200 is added on top
of the fee computed by the category strategy (grace period and hour rounding
included), without any further rounding; in particular a four-wheeler parked
30 minutes with the flag yields a bill amount of exactly 220. -/
theorem c6_lost_ticket_penalty (st : LotState) (tid : Nat) (eg : String) (now : Int)
    (tk : Ticket) (fi si : Nat) (rs : ParkingSlot)
    (hfind : st.active.find? (fun t => t.id == tid) = some tk)
    (hslot : findSlotById st.floors tk.slotId = some (fi, si, rs)) :
    ∃ b : Bill,
      (exitVehicle st tid eg true now).1 = .ok b ∧
      b.amount = (feeCompute tk.stype ((now - tk.inTime).toNat)).amount + 200 ∧
      (tk.stype = .FourWheeler → (now - tk.inTime).toNat = 30 → b.amount = 220) := by
  have hU : U64 = 18446744073709551616 := rfl
  have hle := feeCompute_amount_le tk.stype ((now - tk.inTime).toNat)
  have hmod : ((feeCompute tk.stype ((now - tk.inTime).toNat)).amount + 200) % U64
      = (feeCompute tk.stype ((now - tk.inTime).toNat)).amount + 200 :=
    Nat.mod_eq_of_lt (by omega)
  refine ⟨exitBill st eg now tk true, ?_, ?_, ?_⟩
  · rw [exitVehicle_ok st tid eg true now tk fi si rs hfind hslot]
  · simp only [exitBill, if_true]
    exact hmod
  · intro hst hmins
    simp only [exitBill, if_true, hst, hmins]
    decide

/-- Concrete lot for the C6 witness: one occupied four-wheeler slot backed by
one active ticket that entered at minute 0. -/
def tkC6 : Ticket :=
  { id := 1, entryGateId := "E1", inTime := 0, slotId := "S1",
    vtype := .Car, stype := .FourWheeler, vehicleReg := "R" }

def stC6 : LotState :=
  { floors := [{ floorNo := 1, slots := [{ id := "S1", type := .FourWheeler, isFree := false }] }],
    active := [tkC6], nextTicketId := 2, bills := [], nextBillId := 1 }

/-- Witness for C6: the spec's scenario, a four-wheeler parked 30 minutes
exiting with the lost-ticket flag. -/
theorem c6_lost_ticket_penalty_witness :
    ∃ b : Bill,
      (exitVehicle stC6 1 "X1" true 30).1 = .ok b ∧
      b.amount = (feeCompute tkC6.stype (((30 : Int) - tkC6.inTime).toNat)).amount + 200 ∧
      (tkC6.stype = .FourWheeler → (((30 : Int) - tkC6.inTime).toNat = 30) → b.amount = 220) :=
  c6_lost_ticket_penalty stC6 1 "X1" 30 tkC6 0 0
    { id := "S1", type := .FourWheeler, isFree := false } rfl rfl

/-! ## Bill-table lemmas -/

lemma find?_setBillStatus (bs : List Bill) (i : Nat) (s : BillStatus) (b : Bill)
    (h : bs.find? (fun x => x.id == i) = some b) :
    (setBillStatus bs i s).find? (fun x => x.id == i) = some { b with status := s } := by
  induction bs with
  | nil => simp [List.find?] at h
  | cons c rest ih =>
    by_cases hc : c.id = i
    · rw [List.find?_cons_of_pos _ (by simpa using hc)] at h
      cases h
      simp only [setBillStatus, List.map_cons, if_pos hc]
      exact List.find?_cons_of_pos _ (by simpa using hc)
    · rw [List.find?_cons_of_neg _ (by simpa using hc)] at h
      simp only [setBillStatus, List.map_cons, if_neg hc]
      rw [List.find?_cons_of_neg _ (by simpa using hc)]
      exact ih h

/-! ## C10: the request's amount field is never read -/

/-- C10: paying an existing `Pending` bill yields a receipt whose amount is
the bill's stored amount; the `amount` field of the request is never read, so
requests differing only in `amount` produce the identical outcome (same
receipt or error, same post-state, same processor activity). -/
theorem c10_request_amount_ignored (st : LotState) (req : PaymentRequest)
    (a : Nat) (now : Int) (b : Bill)
    (hfind : st.bills.find? (fun x => x.id == req.bill) = some b)
    (hp : b.status = .Pending) :
    pay st { req with amount := a } now = pay st req now ∧
    ((chargeProc req.method req).1 = true →
      (pay st req now).1 =
        .ok { bill := b.id, ticket := b.ticket, amount := b.amount,
              method := procName req.method, paidAt := now }) := by
  constructor
  · unfold pay
    rw [show ({ req with amount := a } : PaymentRequest).bill = req.bill from rfl,
        hfind, chargeProc_amount_irrel]
  · intro hok
    unfold pay
    rw [hfind]
    simp only [hp]
    rw [if_neg (by simp), if_neg (by simp), if_pos hok]

def bC10 : Bill :=
  { id := 1, ticket := 1, vehicleReg := "R", slotId := "S1", entryGateId := "E1",
    exitGateId := "X1", inTime := 0, outTime := 95, parkedMinutes := 95,
    billedHours := 2, amount := 20, status := .Pending }

def stC10 : LotState :=
  { floors := [], active := [], nextTicketId := 2, bills := [bC10], nextBillId := 2 }

def reqC10 : PaymentRequest :=
  { bill := 1, amount := 999, method := .Cash }

/-- Witness for C10: a cash request with a wrong amount against a concrete
pending bill of amount 20. -/
theorem c10_request_amount_ignored_witness :
    pay stC10 { reqC10 with amount := 0 } 100 = pay stC10 reqC10 100 ∧
    ((chargeProc reqC10.method reqC10).1 = true →
      (pay stC10 reqC10 100).1 =
        .ok { bill := bC10.id, ticket := bC10.ticket, amount := bC10.amount,
              method := procName reqC10.method, paidAt := 100 }) :=
  c10_request_amount_ignored stC10 reqC10 0 100 bC10 rfl rfl

/-! ## C5: idempotent payment replay -/

/-- C5: paying a bill whose status is `Paid` succeeds with an
`"ALREADY_PAID"` receipt carrying the bill's unchanged amount, runs the
payment processor zero times and leaves the state untouched; and paying a
`Pending` bill runs the processor exactly once while any second `pay` on the
same bill (whatever its request) runs the processor zero times — so two pay
calls on one pending bill charge at most once. -/
theorem c5_pay_idempotent (st : LotState) (req : PaymentRequest) (now : Int) (b : Bill)
    (hfind : st.bills.find? (fun x => x.id == req.bill) = some b) :
    (b.status = .Paid →
      pay st req now =
        (.ok { bill := b.id, ticket := b.ticket, amount := b.amount,
               method := "ALREADY_PAID", paidAt := now }, st, 0)) ∧
    (b.status = .Pending →
      (pay st req now).2.2 = 1 ∧
      ∀ req2 now2, req2.bill = req.bill →
        (pay (pay st req now).2.1 req2 now2).2.2 = 0) := by
  constructor
  · intro hp
    unfold pay
    rw [hfind]
    simp [hp]
  · intro hp
    have hpay : pay st req now =
        (if (chargeProc req.method req).1 then
          (.ok { bill := b.id, ticket := b.ticket, amount := b.amount,
                 method := procName req.method, paidAt := now },
           { st with bills := setBillStatus st.bills req.bill .Paid }, 1)
        else
          (.error ("Payment failed: " ++ (chargeProc req.method req).2),
           { st with bills := setBillStatus st.bills req.bill .Failed }, 1)) := by
      unfold pay
      rw [hfind]
      simp only [hp]
      rw [if_neg (by simp), if_neg (by simp)]
    constructor
    · rw [hpay]
      split <;> rfl
    · intro req2 now2 h2
      rw [hpay]
      split
      · have hf : (setBillStatus st.bills req.bill BillStatus.Paid).find?
            (fun x => x.id == req2.bill) = some { b with status := .Paid } := by
          rw [h2]
          exact find?_setBillStatus st.bills req.bill .Paid b hfind
        unfold pay
        rw [show ({ st with bills := setBillStatus st.bills req.bill .Paid } :
              LotState).bills = setBillStatus st.bills req.bill .Paid from rfl, hf]
        simp
      · have hf : (setBillStatus st.bills req.bill BillStatus.Failed).find?
            (fun x => x.id == req2.bill) = some { b with status := .Failed } := by
          rw [h2]
          exact find?_setBillStatus st.bills req.bill .Failed b hfind
        unfold pay
        rw [show ({ st with bills := setBillStatus st.bills req.bill .Failed } :
              LotState).bills = setBillStatus st.bills req.bill .Failed from rfl, hf]
        simp

def bC5 : Bill := { bC10 with id := 2, status := .Paid }

def stC5 : LotState :=
  { floors := [], active := [], nextTicketId := 2, bills := [bC10, bC5], nextBillId := 3 }

/-- Witness for C5: a concrete ledger holding a paid bill (id 2) and a
pending bill (id 1); both conjuncts of the theorem are exercised. -/
theorem c5_pay_idempotent_witness :
    (bC5.status = .Paid →
      pay stC5 { bill := 2, amount := 20, method := .Card } 100 =
        (.ok { bill := bC5.id, ticket := bC5.ticket, amount := bC5.amount,
               method := "ALREADY_PAID", paidAt := 100 }, stC5, 0)) ∧
    (bC5.status = .Pending →
      (pay stC5 { bill := 2, amount := 20, method := .Card } 100).2.2 = 1 ∧
      ∀ req2 now2, req2.bill = ({ bill := 2, amount := 20, method := .Card } :
          PaymentRequest).bill →
        (pay (pay stC5 { bill := 2, amount := 20, method := .Card } 100).2.1
          req2 now2).2.2 = 0) :=
  c5_pay_idempotent stC5 { bill := 2, amount := 20, method := .Card } 100 bC5 rfl

/-! ## C2: bill status transitions (corrected: cancel also hits Failed/Cancelled) -/

def bC2 : Bill :=
  { id := 1, ticket := 1, vehicleReg := "R", slotId := "S1", entryGateId := "E1",
    exitGateId := "X1", inTime := 0, outTime := 0, parkedMinutes := 0,
    billedHours := 0, amount := 0, status := .Failed }

def stC2 : LotState :=
  { floors := [], active := [], nextTicketId := 1, bills := [bC2], nextBillId := 2 }

/-- C2 counterexample: `cancel` on a bill whose status is `Failed` succeeds
and transitions it to `Cancelled` — so cancel does *not* succeed only on
`Pending` bills, and a `Failed` bill *is* transitioned to `Cancelled` by a
later cancel call. -/
theorem c2_counterexample :
    bC2.status = .Failed ∧
    (cancel stC2 1).1 = .ok () ∧
    (cancel stC2 1).2.bills = [{ bC2 with status := .Cancelled }] :=
  ⟨rfl, rfl, rfl⟩

/-- C2 amended: a bill's status still only moves out of `Pending` via
`pay` (`Paid` on success, `Failed` on decline) and `Paid` is terminal
(`pay` replays it without mutation, `cancel` refuses it), but `cancel`
succeeds on *any* existing non-`Paid` bill — `Pending`, `Failed` or
`Cancelled` alike — setting its status to `Cancelled`; `pay` refuses
`Failed` and `Cancelled` bills without mutating them. -/
theorem c2_bill_status_transitions (st : LotState) (i : Nat) (b : Bill)
    (hfind : st.bills.find? (fun x => x.id == i) = some b) :
    (b.status = .Paid → cancel st i = (.error "Cannot cancel a paid bill", st)) ∧
    (b.status ≠ .Paid →
      cancel st i = (.ok (), { st with bills := setBillStatus st.bills i .Cancelled })) ∧
    (∀ req : PaymentRequest, ∀ now : Int, req.bill = i →
      (b.status = .Paid → (pay st req now).2.1 = st) ∧
      ((b.status = .Failed ∨ b.status = .Cancelled) →
        pay st req now = (.error "Bill is not payable (status != Pending)", st, 0))) := by
  refine ⟨?_, ?_, ?_⟩
  · intro hp
    unfold cancel
    rw [hfind]
    simp [hp]
  · intro hp
    unfold cancel
    rw [hfind]
    simp [hp]
  · intro req now hreq
    subst hreq
    constructor
    · intro hp
      unfold pay
      rw [hfind]
      simp [hp]
    · intro hp
      unfold pay
      rw [hfind]
      rcases hp with hp | hp <;> simp [hp]

/-- Witness for C2 amended: the concrete `Failed` bill is cancelled. -/
theorem c2_bill_status_transitions_witness :
    cancel stC2 1 = (.ok (), { stC2 with bills := setBillStatus stC2.bills 1 .Cancelled }) :=
  (c2_bill_status_transitions stC2 1 bC2 rfl).2.1 (by decide)

/-! ## C9: configuration validation (corrected: configure installs anything) -/

def stC9 : LotState :=
  { floors := [{ floorNo := 1, slots := [{ id := "S1", type := .TwoWheeler, isFree := true }] }],
    active := [], nextTicketId := 1, bills := [], nextBillId := 1 }

/-- C9 counterexample: `ParkingLot::configure` performs no validation — it
installs a zero-floor layout, and a layout containing a floor with zero
slots, without any rejection. -/
theorem c9_counterexample :
    (configure stC9 []).floors = [] ∧
    (configure stC9 [{ floorNo := 7, slots := [] }]).floors
      = [{ floorNo := 7, slots := [] }] :=
  ⟨rfl, rfl⟩

/-- C9 amended: `configure` itself installs any given layout unconditionally
(resetting tickets, bills and counters); the rejection of a zero-floor
configuration or of a floor with zero slots is performed by the JSON config
loader (`loadConfigFromJson`), not by the core. -/
theorem c9_configure_validation (st : LotState) (fs : List Floor) :
    configure st fs =
      { floors := fs, active := [], nextTicketId := 1, bills := [], nextBillId := 1 } ∧
    (fs = [] → validateConfig fs = .error "Config has zero floors") ∧
    ((∃ f ∈ fs, f.slots = []) → ∃ e, validateConfig fs = .error e) ∧
    (fs ≠ [] → (∀ f ∈ fs, f.slots ≠ []) → validateConfig fs = .ok fs) := by
  refine ⟨rfl, ?_, ?_, ?_⟩
  · rintro rfl
    rfl
  · rintro ⟨f, hf, hempty⟩
    have hsome : (fs.find? (fun f => f.slots.isEmpty)).isSome := by
      rw [List.find?_isSome]
      exact ⟨f, hf, by simp [hempty]⟩
    obtain ⟨g, hg⟩ := Option.isSome_iff_exists.1 hsome
    unfold validateConfig
    rw [hg]
    exact ⟨_, rfl⟩
  · intro hne hall
    have hnone : fs.find? (fun f => f.slots.isEmpty) = none := by
      rw [List.find?_eq_none]
      intro f hf
      simpa using hall f hf
    unfold validateConfig
    rw [hnone, if_neg (by simpa using hne)]

/-- Witness for C9 amended: a valid one-floor layout passes the loader's
validation and `configure` installs it. -/
theorem c9_configure_validation_witness :
    validateConfig
      [{ floorNo := 1, slots := [{ id := "S1", type := SlotType.TwoWheeler, isFree := true }] }]
      = .ok [{ floorNo := 1, slots := [{ id := "S1", type := SlotType.TwoWheeler, isFree := true }] }] :=
  (c9_configure_validation stC9
      [{ floorNo := 1, slots := [{ id := "S1", type := SlotType.TwoWheeler, isFree := true }] }]).2.2.2
    (by simp) (by decide)

/-! ## C3: failing operations and state (corrected: SlotInconsistency erases the ticket) -/

def tkC3 : Ticket :=
  { id := 1, entryGateId := "E1", inTime := 0, slotId := "GHOST",
    vtype := .Car, stype := .FourWheeler, vehicleReg := "R" }

def stC3 : LotState :=
  { floors := [], active := [tkC3], nextTicketId := 2, bills := [], nextBillId := 1 }

/-- C3 counterexample: an `exitVehicle` call failing with the
slot-not-found (`SlotInconsistency`) error *does* change the active-ticket
table — the ticket is erased before the slot lookup, so the table shrinks
from one entry to zero on a failing call. -/
theorem c3_counterexample :
    (exitVehicle stC3 1 "X" false 0).1
      = .error "Slot referenced by ticket not found: GHOST" ∧
    (exitVehicle stC3 1 "X" false 0).2.active = [] ∧
    stC3.active = [tkC3] ∧
    ([] : List Ticket) ≠ [tkC3] :=
  ⟨rfl, rfl, rfl, by decide⟩

/-- C3 amended: every failing operation leaves the state exactly as it was,
except (a) a declined payment, which sets the bill `Failed` before the error
is reported, and (b) an `exitVehicle` failing with `SlotInconsistency`,
which has already erased the ticket from the active table (it changes no
slot and no bill); a failing `exitVehicle` with an unknown ticket changes
nothing.  The conjuncts cover each failing path of the error taxonomy:
`NoCapacity` entry, `InvalidTicket` exit, `SlotInconsistency` exit,
`BillNotFound` pay, `NotPayable` pay on a `Failed`/`Cancelled` bill,
`PaymentDeclined` pay, and both `cancel` failures. -/
theorem c3_failed_op_state (st : LotState) (g eg : String) (v : Vehicle)
    (tid : Nat) (lt : Bool) (now : Int) (req : PaymentRequest) (i : Nat) :
    (∀ e, (enterVehicle st g v now).1 = .error e → (enterVehicle st g v now).2 = st) ∧
    (st.active.find? (fun t => t.id == tid) = none →
      exitVehicle st tid eg lt now = (.error "Invalid or already-closed ticket", st)) ∧
    (∀ tk, st.active.find? (fun t => t.id == tid) = some tk →
      findSlotById st.floors tk.slotId = none →
      exitVehicle st tid eg lt now =
        (.error ("Slot referenced by ticket not found: " ++ tk.slotId),
         { st with active := eraseTicket st.active tid })) ∧
    (st.bills.find? (fun b => b.id == req.bill) = none →
      pay st req now = (.error "Bill not found", st, 0)) ∧
    (∀ b, st.bills.find? (fun x => x.id == req.bill) = some b →
      (b.status = .Failed ∨ b.status = .Cancelled) →
      pay st req now = (.error "Bill is not payable (status != Pending)", st, 0)) ∧
    (∀ b, st.bills.find? (fun x => x.id == req.bill) = some b →
      b.status = .Pending → (chargeProc req.method req).1 = false →
      pay st req now =
        (.error ("Payment failed: " ++ (chargeProc req.method req).2),
         { st with bills := setBillStatus st.bills req.bill .Failed }, 1)) ∧
    (∀ e, (cancel st i).1 = .error e → (cancel st i).2 = st) := by
  refine ⟨?_, ?_, ?_, ?_, ?_, ?_, ?_⟩
  · intro e he
    cases hfs : findSlot st.floors (slotFor v.type) with
    | none => rw [enterVehicle_none st g v now hfs]
    | some p =>
      rw [enterVehicle_some st g v now p.1 p.2.1 p.2.2 (by rw [hfs])] at he
      simp at he
  · intro h
    exact exitVehicle_no_ticket st tid eg lt now h
  · intro tk hfind hslot
    exact exitVehicle_no_slot st tid eg lt now tk hfind hslot
  · intro h
    unfold pay
    rw [h]
  · intro b hfind hp
    unfold pay
    rw [hfind]
    rcases hp with hp | hp <;> simp [hp]
  · intro b hfind hp hcharge
    unfold pay
    rw [hfind]
    simp only [hp]
    rw [if_neg (by simp), if_neg (by simp), if_neg (by simp [hcharge])]
  · intro e he
    cases hfind : st.bills.find? (fun b => b.id == i) with
    | none =>
      unfold cancel
      rw [hfind]
    | some b =>
      by_cases hp : b.status = .Paid
      · unfold cancel
        rw [hfind]
        simp [hp]
      · unfold cancel at he
        rw [hfind] at he
        simp [hp] at he

/-- Witness for C3 amended: a concrete unknown-ticket exit and an
unknown-bill payment each fail leaving the state untouched, and a payment
against a concrete `Failed` bill fails with the not-payable error, also
leaving the state untouched. -/
theorem c3_failed_op_state_witness :
    exitVehicle stC3 2 "X" false 0 = (.error "Invalid or already-closed ticket", stC3) ∧
    pay stC3 { bill := 1, amount := 0, method := .Cash } 0
      = (.error "Bill not found", stC3, 0) ∧
    pay stC2 { bill := 1, amount := 0, method := .Cash } 0
      = (.error "Bill is not payable (status != Pending)", stC2, 0) :=
  ⟨(c3_failed_op_state stC3 "E" "X" { regNo := "R", type := .Car } 2 false 0
      { bill := 1, amount := 0, method := .Cash } 1).2.1 rfl,
   (c3_failed_op_state stC3 "E" "X" { regNo := "R", type := .Car } 2 false 0
      { bill := 1, amount := 0, method := .Cash } 1).2.2.2.1 rfl,
   (c3_failed_op_state stC2 "E" "X" { regNo := "R", type := .Car } 2 false 0
      { bill := 1, amount := 0, method := .Cash } 1).2.2.2.2.1 bC2 rfl (Or.inl rfl)⟩

/-! ## Scan lemmas for the first-fit search -/

lemma mem_of_getElem?_eq_some {α : Type _} {l : List α} {i : Nat} {a : α}
    (h : l[i]? = some a) : a ∈ l := by
  induction l generalizing i with
  | nil => simp at h
  | cons x xs ih =>
    cases i with
    | zero =>
      rw [List.getElem?_cons_zero] at h
      cases h
      exact List.mem_cons_self _ _
    | succ n =>
      rw [List.getElem?_cons_succ] at h
      exact List.mem_cons_of_mem _ (ih h)

lemma findFreeIndex_none_iff (ss : List ParkingSlot) (t : SlotType) :
    findFreeIndex ss t = none ↔ ∀ s ∈ ss, ¬(s.type = t ∧ s.isFree = true) := by
  induction ss with
  | nil => simp [findFreeIndex]
  | cons s ss ih =>
    rw [findFreeIndex]
    by_cases h : (s.type == t && s.isFree) = true
    · rw [if_pos h]
      simp only [Bool.and_eq_true, beq_iff_eq] at h
      constructor
      · intro hc
        cases hc
      · intro hall
        exact absurd ⟨h.1, h.2⟩ (hall s (List.mem_cons_self s ss))
    · rw [if_neg h]
      simp only [Bool.and_eq_true, beq_iff_eq] at h
      rw [Option.map_eq_none', ih]
      constructor
      · intro hall s' hs'
        rcases List.mem_cons.1 hs' with rfl | hs'
        · intro hc
          exact h ⟨hc.1, hc.2⟩
        · exact hall s' hs'
      · intro hall s' hs'
        exact hall s' (List.mem_cons_of_mem _ hs')

lemma findFreeIndex_some_spec (ss : List ParkingSlot) (t : SlotType) (i : Nat)
    (s : ParkingSlot) (h : findFreeIndex ss t = some (i, s)) :
    ss[i]? = some s ∧ s.type = t ∧ s.isFree = true ∧
      ∀ j, j < i → ∀ s', ss[j]? = some s' → ¬(s'.type = t ∧ s'.isFree = true) := by
  induction ss generalizing i s with
  | nil => simp [findFreeIndex] at h
  | cons a ss ih =>
    rw [findFreeIndex] at h
    by_cases ha : (a.type == t && a.isFree) = true
    · rw [if_pos ha] at h
      simp only [Option.some.injEq, Prod.mk.injEq] at h
      obtain ⟨h0, ha'⟩ := h
      subst h0
      subst ha'
      simp only [Bool.and_eq_true, beq_iff_eq] at ha
      exact ⟨List.getElem?_cons_zero, ha.1, ha.2,
        fun j hj => absurd hj (Nat.not_lt_zero j)⟩
    · rw [if_neg ha] at h
      simp only [Bool.and_eq_true, beq_iff_eq] at ha
      cases hfi : findFreeIndex ss t with
      | none =>
        rw [hfi] at h
        simp at h
      | some p =>
        rw [hfi] at h
        obtain ⟨i0, s0⟩ := p
        simp only [Option.map_some', Option.some.injEq, Prod.mk.injEq] at h
        obtain ⟨h0, hs0⟩ := h
        subst hs0
        obtain ⟨hidx, hty, hfree, hmin⟩ := ih _ _ hfi
        subst h0
        refine ⟨by rw [List.getElem?_cons_succ]; exact hidx, hty, hfree, ?_⟩
        intro j hj s' hs'
        cases j with
        | zero =>
          rw [List.getElem?_cons_zero] at hs'
          cases hs'
          intro hc
          exact ha ⟨hc.1, hc.2⟩
        | succ k =>
          rw [List.getElem?_cons_succ] at hs'
          exact hmin k (by omega) s' hs'

lemma findSlot_none_iff (fl : List Floor) (t : SlotType) :
    findSlot fl t = none ↔
      ∀ f ∈ fl, ∀ s ∈ f.slots, ¬(s.type = t ∧ s.isFree = true) := by
  induction fl with
  | nil => simp [findSlot]
  | cons f fl ih =>
    rw [findSlot]
    cases hfi : findFreeIndex f.slots t with
    | some p =>
      obtain ⟨i, s⟩ := p
      constructor
      · intro hc
        cases hc
      · intro hall
        obtain ⟨hidx, hty, hfree, _⟩ := findFreeIndex_some_spec f.slots t i s hfi
        exact absurd ⟨hty, hfree⟩
          (hall f (List.mem_cons_self f fl) s (mem_of_getElem?_eq_some hidx))
    | none =>
      have hhead := (findFreeIndex_none_iff f.slots t).1 hfi
      rw [Option.map_eq_none', ih]
      constructor
      · intro htail f' hf'
        rcases List.mem_cons.1 hf' with rfl | hf'
        · exact hhead
        · exact htail f' hf'
      · intro hall f' hf'
        exact hall f' (List.mem_cons_of_mem _ hf')

lemma findSlot_some_spec (fl : List Floor) (t : SlotType) (fi si : Nat)
    (s : ParkingSlot) (h : findSlot fl t = some (fi, si, s)) :
    ∃ f, fl[fi]? = some f ∧ f.slots[si]? = some s ∧ s.type = t ∧ s.isFree = true ∧
      (∀ fj, fj < fi → ∀ f', fl[fj]? = some f' →
        ∀ s' ∈ f'.slots, ¬(s'.type = t ∧ s'.isFree = true)) ∧
      (∀ sj, sj < si → ∀ s', f.slots[sj]? = some s' →
        ¬(s'.type = t ∧ s'.isFree = true)) := by
  induction fl generalizing fi with
  | nil => simp [findSlot] at h
  | cons f fl ih =>
    rw [findSlot] at h
    cases hfi : findFreeIndex f.slots t with
    | some p =>
      rw [hfi] at h
      obtain ⟨i, s0⟩ := p
      simp only [Option.some.injEq, Prod.mk.injEq] at h
      obtain ⟨h0, hsi, hs0⟩ := h
      subst h0
      subst hsi
      subst hs0
      obtain ⟨hidx, hty, hfree, hmin⟩ := findFreeIndex_some_spec f.slots t _ _ hfi
      exact ⟨f, List.getElem?_cons_zero, hidx, hty, hfree,
        fun fj hfj => absurd hfj (Nat.not_lt_zero fj), hmin⟩
    | none =>
      rw [hfi] at h
      have hhead := (findFreeIndex_none_iff f.slots t).1 hfi
      cases hrec : findSlot fl t with
      | none =>
        rw [hrec] at h
        simp at h
      | some q =>
        rw [hrec] at h
        obtain ⟨fj0, sj0, s0⟩ := q
        simp only [Option.map_some', Option.some.injEq, Prod.mk.injEq] at h
        obtain ⟨h0, hsi, hs0⟩ := h
        subst hsi
        subst hs0
        obtain ⟨f', hf', hidx, hty, hfree, hminf, hmins⟩ := ih fj0 hrec
        subst h0
        refine ⟨f', by rw [List.getElem?_cons_succ]; exact hf', hidx, hty, hfree, ?_, hmins⟩
        intro fj hfj f'' hf''
        cases fj with
        | zero =>
          rw [List.getElem?_cons_zero] at hf''
          cases hf''
          exact hhead
        | succ k =>
          rw [List.getElem?_cons_succ] at hf''
          exact hminf k (by omega) f'' hf''

/-! ## C7: deterministic first-fit allocation -/

/-- No free slot of category `t` exists anywhere in the given floors. -/
def NoFreeSlot (floors : List Floor) (t : SlotType) : Prop :=
  ∀ f ∈ floors, ∀ s ∈ f.slots, ¬(s.type = t ∧ s.isFree = true)

/-- A successful `enterVehicle` outcome as the claim describes it: a floor
index `fi` and slot index `si` holding a free slot of the required category,
such that no earlier floor has any free slot of that category and no earlier
slot on the same floor matches (deterministic lowest-floor-then-lowest-slot
first fit), and the call reserves exactly that slot while recording one new
ticket for it. -/
def FirstFitOutcome (st : LotState) (g : String) (v : Vehicle) (now : Int) : Prop :=
  ∃ fi si f s,
    st.floors[fi]? = some f ∧ f.slots[si]? = some s ∧
    s.type = slotFor v.type ∧ s.isFree = true ∧
    (∀ fj, fj < fi → ∀ f', st.floors[fj]? = some f' →
      ∀ s' ∈ f'.slots, ¬(s'.type = slotFor v.type ∧ s'.isFree = true)) ∧
    (∀ sj, sj < si → ∀ s', f.slots[sj]? = some s' →
      ¬(s'.type = slotFor v.type ∧ s'.isFree = true)) ∧
    enterVehicle st g v now =
      (.ok st.nextTicketId,
       { st with
           floors := setSlotFree st.floors fi si false,
           active := emplaceTicket st.active
             { id := st.nextTicketId, entryGateId := g, inTime := now,
               slotId := s.id, vtype := v.type, stype := s.type,
               vehicleReg := v.regNo },
           nextTicketId := (st.nextTicketId + 1) % U64 })

/-- C7: `enterVehicle` fails with the no-capacity error — creating no ticket
and leaving the state untouched — exactly when no free slot of the required
category exists on any floor; otherwise it reserves precisely the free
matching slot with the lowest floor index, and within that floor the lowest
slot index. -/
theorem c7_first_fit_enter (st : LotState) (g : String) (v : Vehicle) (now : Int) :
    (NoFreeSlot st.floors (slotFor v.type) →
      enterVehicle st g v now = (.error "No free slot available", st)) ∧
    (¬NoFreeSlot st.floors (slotFor v.type) → FirstFitOutcome st g v now) := by
  constructor
  · intro hno
    exact enterVehicle_none st g v now ((findSlot_none_iff _ _).2 hno)
  · intro hex
    cases hfs : findSlot st.floors (slotFor v.type) with
    | none => exact absurd ((findSlot_none_iff _ _).1 hfs) hex
    | some p =>
      obtain ⟨fi, si, s⟩ := p
      obtain ⟨f, h1, h2, h3, h4, h5, h6⟩ := findSlot_some_spec _ _ fi si s hfs
      exact ⟨fi, si, f, s, h1, h2, h3, h4, h5, h6,
        enterVehicle_some st g v now fi si s hfs⟩

/-- Concrete two-floor lot for the C7 witness: the only free four-wheeler
slot is on floor index 1, slot index 1. -/
def stC7 : LotState :=
  { floors :=
      [{ floorNo := 0,
         slots := [{ id := "A1", type := .TwoWheeler, isFree := true },
                   { id := "A2", type := .FourWheeler, isFree := false }] },
       { floorNo := 1,
         slots := [{ id := "B1", type := .TwoWheeler, isFree := false },
                   { id := "B2", type := .FourWheeler, isFree := true }] }],
    active := [], nextTicketId := 5, bills := [], nextBillId := 1 }

/-- Witness for C7: in `stC7` a car's entry must pick floor 1, slot 1. -/
theorem c7_first_fit_enter_witness :
    ¬NoFreeSlot stC7.floors (slotFor ({ regNo := "R", type := .Car } : Vehicle).type) ∧
    FirstFitOutcome stC7 "E1" { regNo := "R", type := .Car } 0 :=
  ⟨by unfold NoFreeSlot; decide,
   (c7_first_fit_enter stC7 "E1" { regNo := "R", type := .Car } 0).2
     (by unfold NoFreeSlot; decide)⟩

/-! ## C1 infrastructure: slot decomposition and table lemmas -/

lemma allSlots_cons (f : Floor) (fl : List Floor) :
    allSlots (f :: fl) = f.slots ++ allSlots fl := by
  simp [allSlots]

lemma mem_allSlots {fl : List Floor} {f : Floor} {s : ParkingSlot}
    (hf : f ∈ fl) (hs : s ∈ f.slots) : s ∈ allSlots fl := by
  unfold allSlots
  exact List.mem_flatMap.2 ⟨f, hf, hs⟩

lemma setSlotInList_decomp (ss : List ParkingSlot) (si : Nat) (s : ParkingSlot)
    (h : ss[si]? = some s) (b : Bool) :
    ∃ l1 l2, ss = l1 ++ s :: l2 ∧
      setSlotInList ss si b = l1 ++ { s with isFree := b } :: l2 := by
  induction ss generalizing si with
  | nil => simp at h
  | cons a ss ih =>
    cases si with
    | zero =>
      rw [List.getElem?_cons_zero] at h
      cases h
      exact ⟨[], ss, rfl, rfl⟩
    | succ k =>
      rw [List.getElem?_cons_succ] at h
      obtain ⟨l1, l2, h1, h2⟩ := ih k h
      refine ⟨a :: l1, l2, ?_, ?_⟩
      · rw [List.cons_append, ← h1]
      · show a :: setSlotInList ss k b = _
        rw [List.cons_append, ← h2]

lemma setSlotFree_decomp (fl : List Floor) (fi si : Nat) (f : Floor) (s : ParkingSlot)
    (hf : fl[fi]? = some f) (hs : f.slots[si]? = some s) (b : Bool) :
    ∃ L1 L2, allSlots fl = L1 ++ s :: L2 ∧
      allSlots (setSlotFree fl fi si b) = L1 ++ { s with isFree := b } :: L2 := by
  induction fl generalizing fi with
  | nil => simp at hf
  | cons g fl ih =>
    cases fi with
    | zero =>
      rw [List.getElem?_cons_zero] at hf
      cases hf
      obtain ⟨l1, l2, h1, h2⟩ := setSlotInList_decomp _ si s hs b
      refine ⟨l1, l2 ++ allSlots fl, ?_, ?_⟩
      · rw [allSlots_cons, h1]
        simp [List.append_assoc]
      · rw [show setSlotFree (f :: fl) 0 si b
              = { f with slots := setSlotInList f.slots si b } :: fl from rfl,
            allSlots_cons]
        show setSlotInList f.slots si b ++ allSlots fl = _
        rw [h2]
        simp [List.append_assoc]
    | succ k =>
      rw [List.getElem?_cons_succ] at hf
      obtain ⟨L1, L2, h1, h2⟩ := ih k hf
      refine ⟨g.slots ++ L1, L2, ?_, ?_⟩
      · rw [allSlots_cons, h1]
        simp [List.append_assoc]
      · rw [show setSlotFree (g :: fl) (k + 1) si b = g :: setSlotFree fl k si b from rfl,
            allSlots_cons, h2]
        simp [List.append_assoc]

lemma nodup_middle_not_mem {α β : Type _} (f : α → β) {l1 l2 : List α} {a : α}
    (h : ((l1 ++ a :: l2).map f).Nodup) : f a ∉ (l1 ++ l2).map f := by
  have hp := (show (l1 ++ a :: l2).Perm (a :: (l1 ++ l2)) from List.perm_middle).map f
  have h2 := hp.nodup h
  rw [List.map_cons] at h2
  exact (List.nodup_cons.1 h2).1

lemma length_filter_add_length_filter_not {α : Type _} (l : List α) (p : α → Bool) :
    (l.filter p).length + (l.filter (fun a => !p a)).length = l.length := by
  induction l with
  | nil => rfl
  | cons a l ih =>
    by_cases h : p a = true
    · simp only [List.filter_cons, h, if_true, Bool.not_true, Bool.false_eq_true,
        if_false, List.length_cons]
      omega
    · simp only [List.filter_cons, h, if_false, Bool.not_eq_true] at *
      simp only [List.filter_cons, h, Bool.not_false, if_true, if_false,
        List.length_cons, Bool.false_eq_true]
      omega

lemma findSlotIndexById_some_spec (ss : List ParkingSlot) (sid : String) (i : Nat)
    (s : ParkingSlot) (h : findSlotIndexById ss sid = some (i, s)) :
    ss[i]? = some s ∧ s.id = sid := by
  induction ss generalizing i s with
  | nil => simp [findSlotIndexById] at h
  | cons a ss ih =>
    rw [findSlotIndexById] at h
    by_cases ha : (a.id == sid) = true
    · rw [if_pos ha] at h
      simp only [Option.some.injEq, Prod.mk.injEq] at h
      obtain ⟨h0, ha'⟩ := h
      subst h0
      subst ha'
      exact ⟨List.getElem?_cons_zero, by simpa using ha⟩
    · rw [if_neg ha] at h
      cases hfi : findSlotIndexById ss sid with
      | none =>
        rw [hfi] at h
        simp at h
      | some p =>
        rw [hfi] at h
        obtain ⟨i0, s0⟩ := p
        simp only [Option.map_some', Option.some.injEq, Prod.mk.injEq] at h
        obtain ⟨h0, hs0⟩ := h
        subst hs0
        obtain ⟨hidx, hid⟩ := ih _ _ hfi
        subst h0
        exact ⟨by rw [List.getElem?_cons_succ]; exact hidx, hid⟩

lemma findSlotById_some_spec (fl : List Floor) (sid : String) (fi si : Nat)
    (s : ParkingSlot) (h : findSlotById fl sid = some (fi, si, s)) :
    ∃ f, fl[fi]? = some f ∧ f.slots[si]? = some s ∧ s.id = sid := by
  induction fl generalizing fi with
  | nil => simp [findSlotById] at h
  | cons g fl ih =>
    rw [findSlotById] at h
    cases hfi : findSlotIndexById g.slots sid with
    | some p =>
      rw [hfi] at h
      obtain ⟨i, s0⟩ := p
      simp only [Option.some.injEq, Prod.mk.injEq] at h
      obtain ⟨h0, hsi, hs0⟩ := h
      subst h0
      subst hsi
      subst hs0
      obtain ⟨hidx, hid⟩ := findSlotIndexById_some_spec _ _ _ _ hfi
      exact ⟨g, List.getElem?_cons_zero, hidx, hid⟩
    | none =>
      rw [hfi] at h
      cases hrec : findSlotById fl sid with
      | none =>
        rw [hrec] at h
        simp at h
      | some q =>
        rw [hrec] at h
        obtain ⟨fj, sj, s0⟩ := q
        simp only [Option.map_some', Option.some.injEq, Prod.mk.injEq] at h
        obtain ⟨h0, hsi, hs0⟩ := h
        subst hsi
        subst hs0
        obtain ⟨f, hf, hidx, hid⟩ := ih _ hrec
        subst h0
        exact ⟨f, by rw [List.getElem?_cons_succ]; exact hf, hidx, hid⟩

/-! ## C1: the occupancy invariant -/

/-- The state invariant maintained by entry and exit: slot ids are pairwise
distinct, ticket ids are pairwise distinct and below the counter, the slot
ids bound to active tickets are pairwise distinct, every active ticket's
slot exists and is occupied, and every occupied slot is backed by an active
ticket. -/
def LotInv (st : LotState) : Prop :=
  ((allSlots st.floors).map ParkingSlot.id).Nodup ∧
  (st.active.map Ticket.id).Nodup ∧
  (∀ tk ∈ st.active, tk.id < st.nextTicketId) ∧
  (st.active.map Ticket.slotId).Nodup ∧
  (∀ tk ∈ st.active, ∃ s ∈ allSlots st.floors, s.id = tk.slotId ∧ s.isFree = false) ∧
  (∀ s ∈ allSlots st.floors, s.isFree = false → ∃ tk ∈ st.active, tk.slotId = s.id)

lemma inv_count (st : LotState) (hInv : LotInv st) :
    occupiedCount st.floors = st.active.length := by
  obtain ⟨hids, htids, hfresh, hsids, hforward, hback⟩ := hInv
  set occ := (allSlots st.floors).filter (fun s => !s.isFree) with hocc
  have hsub : (occ.map ParkingSlot.id).Sublist ((allSlots st.floors).map ParkingSlot.id) :=
    (List.filter_sublist _).map _
  have hnd1 : (occ.map ParkingSlot.id).Nodup := List.Nodup.sublist hsub hids
  have hmem : ∀ x, x ∈ occ.map ParkingSlot.id ↔ x ∈ st.active.map Ticket.slotId := by
    intro x
    constructor
    · intro hx
      rw [List.mem_map] at hx
      obtain ⟨s, hsmem, rfl⟩ := hx
      rw [hocc, List.mem_filter] at hsmem
      obtain ⟨hall, hnfree⟩ := hsmem
      have hocc' : s.isFree = false := by simpa using hnfree
      obtain ⟨tk, htk, hid⟩ := hback s hall hocc'
      exact List.mem_map.2 ⟨tk, htk, hid⟩
    · intro hx
      rw [List.mem_map] at hx
      obtain ⟨tk, htk, rfl⟩ := hx
      obtain ⟨s, hsmem, hid, hnf⟩ := hforward tk htk
      refine List.mem_map.2 ⟨s, ?_, hid⟩
      rw [hocc, List.mem_filter]
      exact ⟨hsmem, by simp [hnf]⟩
  have hfs : (occ.map ParkingSlot.id).toFinset = (st.active.map Ticket.slotId).toFinset := by
    ext x
    simp only [List.mem_toFinset]
    exact hmem x
  have h1 := List.toFinset_card_of_nodup hnd1
  have h2 := List.toFinset_card_of_nodup hsids
  have hlen : (occ.map ParkingSlot.id).length = (st.active.map Ticket.slotId).length := by
    rw [← h1, ← h2, hfs]
  rw [List.length_map, List.length_map] at hlen
  exact hlen

lemma inv_configure (st0 : LotState) (fs : List Floor)
    (hids : ((allSlots fs).map ParkingSlot.id).Nodup)
    (hfree : ∀ s ∈ allSlots fs, s.isFree = true) :
    LotInv (configure st0 fs) := by
  refine ⟨hids, ?_, ?_, ?_, ?_, ?_⟩
  · simp [configure]
  · simp [configure]
  · simp [configure]
  · simp [configure]
  · intro s hs hocc
    rw [hfree s hs] at hocc
    cases hocc

lemma inv_enter (st : LotState) (g : String) (v : Vehicle) (now : Int)
    (tid : Nat) (st' : LotState) (hInv : LotInv st)
    (hnw : st.nextTicketId + 1 < U64)
    (hok : enterVehicle st g v now = (.ok tid, st')) : LotInv st' := by
  obtain ⟨hids, htids, hfresh, hsids, hforward, hback⟩ := hInv
  cases hfs : findSlot st.floors (slotFor v.type) with
  | none =>
    rw [enterVehicle_none st g v now hfs] at hok
    simp at hok
  | some p =>
    obtain ⟨fi, si, s⟩ := p
    rw [enterVehicle_some st g v now fi si s hfs] at hok
    injection hok with h1 h2
    subst h2
    obtain ⟨f, hgf, hgs, hty, hfree1, hminf, hmins⟩ := findSlot_some_spec _ _ fi si s hfs
    obtain ⟨L1, L2, hd1, hd2⟩ := setSlotFree_decomp st.floors fi si f s hgf hgs false
    have hsmem : s ∈ allSlots st.floors := by
      rw [hd1]
      simp
    have hany : st.active.any (fun t => t.id == st.nextTicketId) = false := by
      rw [List.any_eq_false]
      intro t ht
      simp only [beq_iff_eq]
      exact Nat.ne_of_lt (hfresh t ht)
    have hemp : emplaceTicket st.active
        { id := st.nextTicketId, entryGateId := g, inTime := now, slotId := s.id,
          vtype := v.type, stype := s.type, vehicleReg := v.regNo }
        = { id := st.nextTicketId, entryGateId := g, inTime := now, slotId := s.id,
            vtype := v.type, stype := s.type, vehicleReg := v.regNo } :: st.active := by
      simp [emplaceTicket, hany]
    refine ⟨?_, ?_, ?_, ?_, ?_, ?_⟩
    · show ((allSlots (setSlotFree st.floors fi si false)).map ParkingSlot.id).Nodup
      rw [hd2]
      have heq : (L1 ++ { s with isFree := false } :: L2).map ParkingSlot.id
          = (L1 ++ s :: L2).map ParkingSlot.id := by
        simp [List.map_append]
      rw [heq, ← hd1]
      exact hids
    · show ((emplaceTicket st.active _).map Ticket.id).Nodup
      rw [hemp, List.map_cons]
      refine List.nodup_cons.2 ⟨?_, htids⟩
      rw [List.mem_map]
      rintro ⟨t, ht, hidEq⟩
      exact Nat.ne_of_lt (hfresh t ht) hidEq
    · show ∀ tk ∈ emplaceTicket st.active _, tk.id < (st.nextTicketId + 1) % U64
      rw [hemp, Nat.mod_eq_of_lt hnw]
      intro tk htk
      rcases List.mem_cons.1 htk with rfl | htk
      · exact Nat.lt_succ_self _
      · exact Nat.lt_succ_of_lt (hfresh tk htk)
    · show ((emplaceTicket st.active _).map Ticket.slotId).Nodup
      rw [hemp, List.map_cons]
      refine List.nodup_cons.2 ⟨?_, hsids⟩
      rw [List.mem_map]
      rintro ⟨t, ht, hsidEq⟩
      obtain ⟨s2, hs2mem, hs2id, hs2occ⟩ := hforward t ht
      have hs2s : s2 = s := List.inj_on_of_nodup_map hids hs2mem hsmem (by rw [hs2id, hsidEq])
      rw [hs2s, hfree1] at hs2occ
      cases hs2occ
    · show ∀ tk ∈ emplaceTicket st.active _,
        ∃ s3 ∈ allSlots (setSlotFree st.floors fi si false),
          s3.id = tk.slotId ∧ s3.isFree = false
      rw [hemp]
      intro tk htk
      rcases List.mem_cons.1 htk with rfl | htk
      · refine ⟨{ s with isFree := false }, ?_, rfl, rfl⟩
        rw [hd2]
        simp
      · obtain ⟨s2, hs2mem, hs2id, hs2occ⟩ := hforward tk htk
        have hs2ne : s2 ≠ s := by
          intro hEq
          rw [hEq, hfree1] at hs2occ
          cases hs2occ
        have hs2in : s2 ∈ L1 ++ L2 := by
          rw [hd1] at hs2mem
          rcases List.mem_append.1 hs2mem with h | h
          · exact List.mem_append.2 (Or.inl h)
          · rcases List.mem_cons.1 h with hh | hh
            · exact absurd hh hs2ne
            · exact List.mem_append.2 (Or.inr hh)
        refine ⟨s2, ?_, hs2id, hs2occ⟩
        rw [hd2]
        rcases List.mem_append.1 hs2in with h | h
        · exact List.mem_append.2 (Or.inl h)
        · exact List.mem_append.2 (Or.inr (List.mem_cons_of_mem _ h))
    · show ∀ s3 ∈ allSlots (setSlotFree st.floors fi si false), s3.isFree = false →
        ∃ tk ∈ emplaceTicket st.active _, tk.slotId = s3.id
      rw [hemp]
      intro s3 hs3 hocc3
      rw [hd2] at hs3
      rcases List.mem_append.1 hs3 with h | h
      · obtain ⟨tk2, htk2, hid2⟩ := hback s3
          (by rw [hd1]; exact List.mem_append.2 (Or.inl h)) hocc3
        exact ⟨tk2, List.mem_cons_of_mem _ htk2, hid2⟩
      · rcases List.mem_cons.1 h with rfl | h
        · exact ⟨_, List.mem_cons_self _ _, rfl⟩
        · obtain ⟨tk2, htk2, hid2⟩ := hback s3
            (by rw [hd1]; exact List.mem_append.2 (Or.inr (List.mem_cons_of_mem _ h))) hocc3
          exact ⟨tk2, List.mem_cons_of_mem _ htk2, hid2⟩

lemma inv_exit (st : LotState) (tid : Nat) (eg : String) (lt : Bool) (now : Int)
    (bl : Bill) (st' : LotState) (hInv : LotInv st)
    (hok : exitVehicle st tid eg lt now = (.ok bl, st')) : LotInv st' := by
  obtain ⟨hids, htids, hfresh, hsids, hforward, hback⟩ := hInv
  cases hfind : st.active.find? (fun t => t.id == tid) with
  | none =>
    rw [exitVehicle_no_ticket st tid eg lt now hfind] at hok
    simp at hok
  | some tk =>
    cases hslot : findSlotById st.floors tk.slotId with
    | none =>
      rw [exitVehicle_no_slot st tid eg lt now tk hfind hslot] at hok
      simp at hok
    | some p =>
      obtain ⟨fi, si, rs⟩ := p
      rw [exitVehicle_ok st tid eg lt now tk fi si rs hfind hslot] at hok
      injection hok with h1 h2
      subst h2
      have htkmem : tk ∈ st.active := List.mem_of_find?_eq_some hfind
      have htkid : tk.id = tid := by
        have := List.find?_some hfind
        simpa using this
      obtain ⟨f, hgf, hgs, hrsid⟩ := findSlotById_some_spec st.floors tk.slotId fi si rs hslot
      obtain ⟨L1, L2, hd1, hd2⟩ := setSlotFree_decomp st.floors fi si f rs hgf hgs true
      have hrsmem : rs ∈ allSlots st.floors := by
        rw [hd1]
        simp
      have hmem_erase : ∀ t, t ∈ eraseTicket st.active tid ↔ t ∈ st.active ∧ t.id ≠ tid := by
        intro t
        simp [eraseTicket, List.mem_filter, bne_iff_ne]
      have hsub2 : (eraseTicket st.active tid).Sublist st.active := List.filter_sublist _
      refine ⟨?_, ?_, ?_, ?_, ?_, ?_⟩
      · show ((allSlots (setSlotFree st.floors fi si true)).map ParkingSlot.id).Nodup
        rw [hd2]
        have heq : (L1 ++ { rs with isFree := true } :: L2).map ParkingSlot.id
            = (L1 ++ rs :: L2).map ParkingSlot.id := by
          simp [List.map_append]
        rw [heq, ← hd1]
        exact hids
      · exact List.Nodup.sublist (hsub2.map _) htids
      · intro t ht
        exact hfresh t ((hmem_erase t).1 ht).1
      · exact List.Nodup.sublist (hsub2.map _) hsids
      · intro t ht
        obtain ⟨htmem, htne⟩ := (hmem_erase t).1 ht
        obtain ⟨s2, hs2mem, hs2id, hs2occ⟩ := hforward t htmem
        have hs2ne : s2 ≠ rs := by
          intro hEq
          have hts : t.slotId = tk.slotId := by
            rw [← hs2id, hEq, ← hrsid]
          have ht2 : t = tk := List.inj_on_of_nodup_map hsids htmem htkmem hts
          exact htne (by rw [ht2]; exact htkid)
        have hs2in : s2 ∈ L1 ++ L2 := by
          rw [hd1] at hs2mem
          rcases List.mem_append.1 hs2mem with h | h
          · exact List.mem_append.2 (Or.inl h)
          · rcases List.mem_cons.1 h with hh | hh
            · exact absurd hh hs2ne
            · exact List.mem_append.2 (Or.inr hh)
        refine ⟨s2, ?_, hs2id, hs2occ⟩
        show s2 ∈ allSlots (setSlotFree st.floors fi si true)
        rw [hd2]
        rcases List.mem_append.1 hs2in with h | h
        · exact List.mem_append.2 (Or.inl h)
        · exact List.mem_append.2 (Or.inr (List.mem_cons_of_mem _ h))
      · intro s3 hs3 hocc3
        show ∃ t ∈ eraseTicket st.active tid, t.slotId = s3.id
        rw [show ({ st with
              floors := setSlotFree st.floors fi si true,
              active := eraseTicket st.active tid,
              bills := emplaceBill st.bills (exitBill st eg now tk lt),
              nextBillId := (st.nextBillId + 1) % U64 } : LotState).floors
            = setSlotFree st.floors fi si true from rfl, hd2] at hs3
        have hs3ne : s3 ≠ ({ rs with isFree := true } : ParkingSlot) := by
          intro hEq
          rw [hEq] at hocc3
          cases hocc3
        have hs3in : s3 ∈ L1 ++ L2 := by
          rcases List.mem_append.1 hs3 with h | h
          · exact List.mem_append.2 (Or.inl h)
          · rcases List.mem_cons.1 h with hh | hh
            · exact absurd hh hs3ne
            · exact List.mem_append.2 (Or.inr hh)
        have hs3mem : s3 ∈ allSlots st.floors := by
          rw [hd1]
          rcases List.mem_append.1 hs3in with h | h
          · exact List.mem_append.2 (Or.inl h)
          · exact List.mem_append.2 (Or.inr (List.mem_cons_of_mem _ h))
        obtain ⟨t2, ht2mem, ht2id⟩ := hback s3 hs3mem hocc3
        have ht2ne : t2 ≠ tk := by
          intro hEq
          have hid3 : s3.id = rs.id := by
            rw [← ht2id, hEq, ← hrsid]
          have hs3rs : s3 = rs := List.inj_on_of_nodup_map hids hs3mem hrsmem hid3
          have hnm := nodup_middle_not_mem ParkingSlot.id (hd1 ▸ hids)
          exact hnm (List.mem_map.2 ⟨s3, hs3in, by rw [hs3rs]⟩)
        refine ⟨t2, (hmem_erase t2).2 ⟨ht2mem, ?_⟩, ht2id⟩
        intro hEq2
        exact ht2ne (List.inj_on_of_nodup_map htids ht2mem htkmem (by rw [hEq2, htkid]))

/-- States reachable from a freshly configured lot — pairwise-distinct slot
ids and every slot free, as delivered by the (validated) configuration
loader — through successful `enterVehicle` and `exitVehicle` calls. -/
inductive Reachable : LotState → Prop where
  | init (st0 : LotState) (fs : List Floor)
      (hids : ((allSlots fs).map ParkingSlot.id).Nodup)
      (hfree : ∀ s ∈ allSlots fs, s.isFree = true) :
      Reachable (configure st0 fs)
  | enter (st : LotState) (g : String) (v : Vehicle) (now : Int) (tid : Nat)
      (st' : LotState) (hr : Reachable st)
      (hok : enterVehicle st g v now = (.ok tid, st')) : Reachable st'
  | exits (st : LotState) (tid : Nat) (eg : String) (lt : Bool) (now : Int)
      (bl : Bill) (st' : LotState) (hr : Reachable st)
      (hok : exitVehicle st tid eg lt now = (.ok bl, st')) : Reachable st'

/-- Wrap-free reachability: like `Reachable`, but every ticket issuance is
required to happen with a counter value below `2^64 - 1`, i.e. the 64-bit
ticket counter never wraps along the call sequence (fewer than `2^64 - 1`
tickets issued since configuration). -/
inductive ReachableNoWrap : LotState → Prop where
  | init (st0 : LotState) (fs : List Floor)
      (hids : ((allSlots fs).map ParkingSlot.id).Nodup)
      (hfree : ∀ s ∈ allSlots fs, s.isFree = true) :
      ReachableNoWrap (configure st0 fs)
  | enter (st : LotState) (g : String) (v : Vehicle) (now : Int) (tid : Nat)
      (st' : LotState) (hnw : st.nextTicketId + 1 < U64) (hr : ReachableNoWrap st)
      (hok : enterVehicle st g v now = (.ok tid, st')) : ReachableNoWrap st'
  | exits (st : LotState) (tid : Nat) (eg : String) (lt : Bool) (now : Int)
      (bl : Bill) (st' : LotState) (hr : ReachableNoWrap st)
      (hok : exitVehicle st tid eg lt now = (.ok bl, st')) : ReachableNoWrap st'

lemma reachableNoWrap_inv (st : LotState) (h : ReachableNoWrap st) : LotInv st := by
  induction h with
  | init st0 fs hids hfree => exact inv_configure st0 fs hids hfree
  | enter st g v now tid st' hnw hr hok ih => exact inv_enter st g v now tid st' ih hnw hok
  | exits st tid eg lt now bl st' hr hok ih => exact inv_exit st tid eg lt now bl st' ih hok

/-! The counterexample run: one long-lived ticket, then enter/exit cycles on
a second slot until the 64-bit ticket counter wraps back to the live
ticket's id. -/

/-- The car used throughout the counterexample run. -/
def carV : Vehicle := { regNo := "R", type := .Car }

def slotS1 : ParkingSlot := { id := "S1", type := .FourWheeler, isFree := true }

def slotS2 : ParkingSlot := { id := "S2", type := .FourWheeler, isFree := true }

/-- Two four-wheeler slots on one floor. -/
def fsC1 : List Floor := [{ floorNo := 1, slots := [slotS1, slotS2] }]

/-- The long-lived ticket issued by the very first entry (id 1, slot S1). -/
def tkC1 : Ticket :=
  { id := 1, entryGateId := "E", inTime := 0, slotId := "S1",
    vtype := .Car, stype := .FourWheeler, vehicleReg := "R" }

/-- Floors with S1 occupied and S2 free. -/
def goodFloors : List Floor :=
  [{ floorNo := 1, slots := [{ slotS1 with isFree := false }, slotS2] }]

/-- Floors with both S1 and S2 occupied. -/
def badFloors : List Floor :=
  [{ floorNo := 1,
     slots := [{ slotS1 with isFree := false }, { slotS2 with isFree := false }] }]

/-- The cycling ticket issued with counter value `c` (slot S2). -/
def tkCyc (c : Nat) : Ticket :=
  { id := c, entryGateId := "E", inTime := 0, slotId := "S2",
    vtype := .Car, stype := .FourWheeler, vehicleReg := "R" }

/-- A lot state in the recurring shape of the counterexample run: slot S1
occupied by the long-lived ticket 1, slot S2 free, ticket counter at `c`
(bill ledger unconstrained). -/
def GoodState (st : LotState) (c : Nat) : Prop :=
  st.floors = goodFloors ∧ st.active = [tkC1] ∧ st.nextTicketId = c

lemma good_cycle (c : Nat) (bls : List Bill) (nbid : Nat) (hc : c ≠ 1)
    (hr : Reachable ⟨goodFloors, [tkC1], c, bls, nbid⟩) :
    ∃ st', Reachable st' ∧ GoodState st' ((c + 1) % U64) := by
  have hfs : findSlot goodFloors (slotFor carV.type) = some (0, 1, slotS2) := rfl
  have hbeq : ((1 : Nat) == c) = false := by
    cases h : ((1 : Nat) == c) with
    | false => rfl
    | true => exact absurd (eq_of_beq h).symm hc
  have hany : List.any [tkC1] (fun t => t.id == c) = false := by
    simp only [List.any_cons, List.any_nil, Bool.or_false]
    exact hbeq
  have henter : enterVehicle ⟨goodFloors, [tkC1], c, bls, nbid⟩ "E" carV 0
      = (.ok c, ⟨badFloors, tkCyc c :: [tkC1], (c + 1) % U64, bls, nbid⟩) := by
    rw [enterVehicle_some ⟨goodFloors, [tkC1], c, bls, nbid⟩ "E" carV 0 0 1 slotS2 hfs]
    simp [emplaceTicket, hany, tkCyc, badFloors, goodFloors, slotS1, slotS2, carV,
      setSlotFree, setSlotInList]
  have hfind2 : List.find? (fun t => t.id == c) [tkCyc c, tkC1] = some (tkCyc c) :=
    List.find?_cons_of_pos _ (by simp [tkCyc])
  have hslot2 : findSlotById badFloors (tkCyc c).slotId
      = some (0, 1, { slotS2 with isFree := false }) := rfl
  have herase : eraseTicket [tkCyc c, tkC1] c = [tkC1] := by
    have h1 : ((1 : Nat) != c) = true := by
      rw [bne_iff_ne]
      exact fun h => hc h.symm
    simp [eraseTicket, tkCyc, tkC1, h1]
  have hexit : exitVehicle ⟨badFloors, tkCyc c :: [tkC1], (c + 1) % U64, bls, nbid⟩
        c "X" false 0
      = (.ok (exitBill ⟨badFloors, tkCyc c :: [tkC1], (c + 1) % U64, bls, nbid⟩
            "X" 0 (tkCyc c) false),
         ⟨goodFloors, [tkC1], (c + 1) % U64,
          emplaceBill bls (exitBill ⟨badFloors, tkCyc c :: [tkC1], (c + 1) % U64, bls, nbid⟩
            "X" 0 (tkCyc c) false),
          (nbid + 1) % U64⟩) := by
    rw [exitVehicle_ok ⟨badFloors, tkCyc c :: [tkC1], (c + 1) % U64, bls, nbid⟩
        c "X" false 0 (tkCyc c) 0 1 { slotS2 with isFree := false } hfind2 hslot2]
    simp [herase, goodFloors, badFloors, slotS1, slotS2, setSlotFree, setSlotInList]
  exact ⟨_,
    Reachable.exits _ c "X" false 0 _ _
      (Reachable.enter _ "E" carV 0 c _ hr henter) hexit,
    rfl, rfl, rfl⟩

lemma good_reach : ∀ n : Nat, n ≤ U64 - 1 →
    ∃ st, Reachable st ∧ GoodState st ((2 + n) % U64) := by
  intro n
  induction n with
  | zero =>
    intro _
    refine ⟨⟨goodFloors, [tkC1], 2, [], 1⟩, ?_, rfl, rfl, rfl⟩
    exact Reachable.enter (configure ⟨[], [], 1, [], 1⟩ fsC1) "E" carV 0 1
      ⟨goodFloors, [tkC1], 2, [], 1⟩
      (Reachable.init _ fsC1 (by decide) (by decide)) (by rfl)
  | succ k ih =>
    intro hn
    have hU : U64 = 18446744073709551616 := rfl
    have hk : k ≤ U64 - 1 := by omega
    obtain ⟨st, hr, hg⟩ := ih hk
    obtain ⟨fls, act, ntid, bls, nbid⟩ := st
    simp only [GoodState] at hg
    obtain ⟨hf, ha, hnt⟩ := hg
    subst hf
    subst ha
    subst hnt
    have hc : (2 + k) % U64 ≠ 1 := by
      rw [hU] at hn ⊢
      omega
    obtain ⟨st', hr', hg'⟩ := good_cycle ((2 + k) % U64) bls nbid hc hr
    refine ⟨st', hr', ?_⟩
    have hmod : ((2 + k) % U64 + 1) % U64 = (2 + (k + 1)) % U64 := by
      rw [hU]
      omega
    rw [← hmod]
    exact hg'

lemma bad_state_exists : ∃ st, Reachable st ∧ GoodState st 1 := by
  obtain ⟨st, hr, hg⟩ := good_reach (U64 - 1) le_rfl
  have h1 : (2 + (U64 - 1)) % U64 = 1 := by decide
  rw [h1] at hg
  exact ⟨st, hr, hg⟩

/-- C1 counterexample: the claim as stated is false for the program — after
the 64-bit ticket counter wraps (one long-lived ticket, then `2^64 - 1`
enter/exit cycles on a second slot), `TicketingService` reissues ticket
id 1; the `active_.emplace` of the new ticket silently inserts nothing
because id 1 is still active, while the chosen slot has already been marked
occupied, so a *successful* `enterVehicle` reaches a state with 2 occupied
slots but only 1 active ticket. -/
theorem c1_counterexample :
    ∃ st, Reachable st ∧ (occupancy st).2.1 ≠ activeCount st := by
  obtain ⟨st, hr, hg⟩ := bad_state_exists
  obtain ⟨fls, act, ntid, bls, nbid⟩ := st
  simp only [GoodState] at hg
  obtain ⟨hf, ha, hnt⟩ := hg
  subst hf
  subst ha
  subst hnt
  have hfs : findSlot goodFloors (slotFor carV.type) = some (0, 1, slotS2) := rfl
  have henter := enterVehicle_some ⟨goodFloors, [tkC1], 1, bls, nbid⟩ "E" carV 0 0 1 slotS2 hfs
  have hok : enterVehicle ⟨goodFloors, [tkC1], 1, bls, nbid⟩ "E" carV 0
      = (.ok 1, ⟨badFloors, [tkC1], 2, bls, nbid⟩) := by
    rw [henter]
    rfl
  refine ⟨⟨badFloors, [tkC1], 2, bls, nbid⟩,
    Reachable.enter ⟨goodFloors, [tkC1], 1, bls, nbid⟩ "E" carV 0 1
      ⟨badFloors, [tkC1], 2, bls, nbid⟩ hr hok, ?_⟩
  have h2 : (occupancy (⟨badFloors, [tkC1], 2, bls, nbid⟩ : LotState)).2.1 = 2 := rfl
  have h1' : activeCount (⟨badFloors, [tkC1], 2, bls, nbid⟩ : LotState) = 1 := rfl
  rw [h2, h1']
  omega

/-- C1 amended: in every state reachable from a freshly configured lot by
successful `enterVehicle` / `exitVehicle` calls during which the 64-bit
ticket counter never wraps (fewer than `2^64 - 1` tickets issued), the
number of slots with `isFree == false` (the `usedCnt` of `occupancy`)
equals the number of entries in the active-ticket table, and the free count
plus the used count reported by `occupancy` equals the total slot count.
The wrap-free hypothesis is exactly what the counterexample's run
violates. -/
theorem c1_occupancy_invariant_amended (st : LotState) (h : ReachableNoWrap st) :
    (occupancy st).2.1 = activeCount st ∧
    (occupancy st).1 + (occupancy st).2.1 = (occupancy st).2.2 :=
  ⟨inv_count st (reachableNoWrap_inv st h),
   length_filter_add_length_filter_not _ _⟩

/-- A fresh one-slot configuration followed by one successful entry, for the
C1 witness. -/
def fsW : List Floor :=
  [{ floorNo := 1, slots := [{ id := "S1", type := .FourWheeler, isFree := true }] }]

def stW0 : LotState :=
  configure { floors := [], active := [], nextTicketId := 1, bills := [], nextBillId := 1 } fsW

def stW1 : LotState := (enterVehicle stW0 "E1" { regNo := "R", type := .Car } 0).2

/-- Witness for C1 amended: the invariant holds in the concrete wrap-free
reachable state with one parked car. -/
theorem c1_occupancy_invariant_amended_witness :
    (occupancy stW1).2.1 = activeCount stW1 ∧
    (occupancy stW1).1 + (occupancy stW1).2.1 = (occupancy stW1).2.2 :=
  c1_occupancy_invariant_amended stW1
    (ReachableNoWrap.enter stW0 "E1" { regNo := "R", type := .Car } 0 1 stW1
      (by decide) (ReachableNoWrap.init _ fsW (by decide) (by decide)) (by rfl))
